import Mathlib

/-
  Shallow embedding of the UI-automation core of `src/main.py`
  (GraphExplorerMCP).  Browser, page and file-system effects are modelled
  by explicit oracles (Bool- or Option-valued functions standing for the
  outcome of each Playwright call), and every operation is embedded as a
  pure function from its inputs and oracles to a result value plus, where
  a claim needs it, a trace of the interactions that were performed.
-/

namespace GraphExplorer

/-- Python's `str.upper()`: uppercase each character.  Defined on the
character list so that it evaluates by kernel reduction. -/
def pyUpper (s : String) : String := String.mk (s.data.map Char.toUpper)

/-- Python's `s.startswith(p)`: `p` is a leading substring of `s`.
Defined on the character list so that it evaluates by kernel reduction. -/
def pyStartsWith (s p : String) : Bool := p.data.isPrefixOf s.data

/-! ### Selector cascade resolver

Embedding of the selector try/except loops of `_run_query_async`
(src/main.py:1200-1224) and `_get_response_body_async`
(src/main.py:877-901): candidates are tried strictly in order, with
`wait_for_selector` modelled by `tryFind` (`none` = timeout / exception,
caught by the `except: continue`); the first visible match stops the loop.
The function returns the list of candidates actually evaluated together
with the resolved element, `none` meaning the cascade was exhausted (the
caller then raises an element-not-found error). -/

def resolveFirstMatch {α : Type} (tryFind : String → Option α) :
    List String → List String × Option α
  | [] => ([], none)
  | s :: rest =>
    match tryFind s with
    | some e => ([s], some e)
    | none =>
      let r := resolveFirstMatch tryFind rest
      (s :: r.1, r.2)

/-- Candidate list for the Run-query button, src/main.py:1200-1207. -/
def run_button_selectors : List String :=
  ["button:has-text(\"Run query\")",
   "button[aria-label*=\"Run\"]",
   "button span:has-text(\"Run query\")",
   "button:has(span:has-text(\"Run query\"))",
   "button:has(svg path[d*=\"M17.22 8.69\"])"]

/-- Candidate list for the response-area Monaco editor, src/main.py:877-884. -/
def response_editor_selectors : List String :=
  ["#response-area #monaco-editor textarea.inputarea",
   "#response-area #monaco-editor textarea[aria-label=\"Editor content\"]",
   "#response-area .monaco-editor textarea.inputarea",
   "#response-area textarea.inputarea",
   "div[data-keybinding-context=\"2\"] textarea.inputarea"]

/-! ### HTTP method validation (tool `graph_explorer_set_method`)

src/main.py:193-224.  The tool validates before calling
`_set_http_method_async` (which is what performs every browser
interaction, starting with `ensure_browser`); `browserCall m` records that
the browser routine was invoked with method string `m`. -/

inductive SetMethodResult
  | validationError (msg : String)
  | browserCall (methodUpper : String)
deriving DecidableEq, Repr

def valid_methods : List String := ["GET", "POST", "PUT", "PATCH", "DELETE"]

def graph_explorer_set_method (method : String) : SetMethodResult :=
  let method_upper := pyUpper method
  if method_upper ∈ valid_methods then
    SetMethodResult.browserCall method_upper
  else
    SetMethodResult.validationError
      ("Invalid HTTP method: " ++ method ++ ". Must be one of: " ++ toString valid_methods)

/-! ### URL validation (tool `graph_explorer_set_url`)

src/main.py:172-191: the tool raises a ValueError unless the URL starts
with the literal Graph endpoint root, and only otherwise calls
`_set_api_url_async` (browser interaction). -/

inductive SetUrlResult
  | validationError (msg : String)
  | browserCall (url : String)
deriving DecidableEq, Repr

def graph_explorer_set_url (api_url : String) : SetUrlResult :=
  if pyStartsWith api_url "https://graph.microsoft.com/" then
    SetUrlResult.browserCall api_url
  else
    SetUrlResult.validationError "URL must be a valid Microsoft Graph API endpoint"

/-! ### Screenshot (tool `graph_explorer_screenshot` and `_take_screenshot_async`)

src/main.py:109-150 and 416-473.  The tool validates that `save_path` is
absolute (ValueError) before calling `_take_screenshot_async`; the async
implementation then either captures an element (`screenshot_options =
{"type": "png"}` at line 446, with no `full_page` key) or the page
(`{"full_page": full_page, "type": "png"}` at line 451).  Whether a path
is absolute is platform-dependent (pathlib), so the check is an oracle
`isAbs`; the code only branches on its Bool result. -/

inductive CaptureKind
  | element (selector : String)
  | page
deriving DecidableEq, Repr

structure CaptureCall where
  kind : CaptureKind
  full_page : Option Bool
  imgType : String
deriving DecidableEq, Repr

def screenshot_capture_call (full_page : Bool) (element_selector : Option String) :
    CaptureCall :=
  match element_selector with
  | some sel => { kind := CaptureKind.element sel, full_page := none, imgType := "png" }
  | none => { kind := CaptureKind.page, full_page := some full_page, imgType := "png" }

inductive ScreenshotResult
  | validationError (msg : String)
  | capture (call : CaptureCall) (save_path : String)
deriving DecidableEq, Repr

def graph_explorer_screenshot (isAbs : String → Bool) (save_path : String)
    (full_page : Bool) (element_selector : Option String) : ScreenshotResult :=
  if isAbs save_path then
    ScreenshotResult.capture (screenshot_capture_call full_page element_selector) save_path
  else
    ScreenshotResult.validationError
      ("save_path must be an absolute path, got: " ++ save_path)

/-! ### Request headers (`_set_request_headers_async`, `_clear_all_headers`)

src/main.py:982-1057.  The UI header table is a list of key/value rows.
`_clear_all_headers` snapshots every remove button
(`query_selector_all`, modelled by `queryOk`; if that query raises, the
outer `except` swallows the error and nothing is removed) and clicks each
one; an individual click failing (`removeOk i = false`) is logged and the
loop continues, leaving that row in place.  The function returns the rows
that remain together with the list of button indices whose click was
attempted.

`_set_request_headers_async` clicks the Request Headers tab (`tabOk`),
clears all existing rows, then attempts `_add_single_header` for each
supplied pair; an individual add failing (`addOk k v = false`) is logged
and the loop continues.  It raises `"Failed to add any headers"` when
`headers_added == 0`.  `finalRows` is the UI state after the call (new
rows are appended after the surviving old ones), `attempted` the pairs
for which an add was attempted. -/

def _clear_all_headers (queryOk : Bool) (removeOk : Nat → Bool)
    (rows : List (String × String)) : List (String × String) × List Nat :=
  if queryOk then
    (((rows.enum).filter (fun p => removeOk p.1 = false)).map Prod.snd,
     (rows.enum).map Prod.fst)
  else
    (rows, [])

inductive SetHeadersOutcome
  | error (msg : String)
  | ok (headers_added : Nat)
deriving DecidableEq, Repr

structure SetHeadersRun where
  finalRows : List (String × String)
  attempted : List (String × String)
  outcome : SetHeadersOutcome
deriving DecidableEq, Repr

def _set_request_headers_async (tabOk queryOk : Bool) (removeOk : Nat → Bool)
    (addOk : String → String → Bool) (rows headers : List (String × String)) :
    SetHeadersRun :=
  if tabOk = false then
    { finalRows := rows, attempted := [],
      outcome := SetHeadersOutcome.error "Request Headers tab not found" }
  else
    let cleared := (_clear_all_headers queryOk removeOk rows).1
    let added := headers.filter (fun kv => addOk kv.1 kv.2)
    { finalRows := cleared ++ added,
      attempted := headers,
      outcome :=
        if added.length = 0 then SetHeadersOutcome.error "Failed to add any headers"
        else SetHeadersOutcome.ok added.length }

/-! ### Cleanup (`cleanup`, src/main.py:1341-1357)

The method runs three guarded awaits in sequence, with no try/except:

    if self.context:    await self.context.close()
    if self.browser:    await self.browser.close()
    if self.playwright: await self.playwright.stop()

`hasContext / hasBrowser / hasPlaywright` model which resources exist;
`ctxOk / brOk / pwOk` whether each close/stop call succeeds.  The result
is the list of steps actually executed, in order, plus whether an
exception escaped `cleanup` (a failing await raises immediately, so the
remaining steps do not run). -/

inductive CleanupStep
  | contextClose
  | browserClose
  | playwrightStop
deriving DecidableEq, Repr

def cleanup (hasContext hasBrowser hasPlaywright : Bool)
    (ctxOk brOk pwOk : Bool) : List CleanupStep × Bool :=
  if hasContext ∧ ¬ctxOk then ([CleanupStep.contextClose], true)
  else
    let s1 : List CleanupStep := if hasContext then [CleanupStep.contextClose] else []
    if hasBrowser ∧ ¬brOk then (s1 ++ [CleanupStep.browserClose], true)
    else
      let s2 : List CleanupStep := if hasBrowser then [CleanupStep.browserClose] else []
      if hasPlaywright ∧ ¬pwOk then (s1 ++ s2 ++ [CleanupStep.playwrightStop], true)
      else
        let s3 : List CleanupStep :=
          if hasPlaywright then [CleanupStep.playwrightStop] else []
        (s1 ++ s2 ++ s3, false)

/-- Steps `cleanup` would run when nothing fails: reverse-acquisition order
restricted to the resources that exist. -/
def cleanupPresentSteps (hasContext hasBrowser hasPlaywright : Bool) :
    List CleanupStep :=
  (if hasContext then [CleanupStep.contextClose] else []) ++
  (if hasBrowser then [CleanupStep.browserClose] else []) ++
  (if hasPlaywright then [CleanupStep.playwrightStop] else [])

/-! ### Request-body content injection (`_set_request_body_async`,
`_set_content_via_keyboard`)

src/main.py:689-845.  After tab/area/editor resolution, content is
injected by a chain of strategies:

1. `nativeApi` — a `page.evaluate` of Monaco-API code (src/main.py:733-775).
   Its JS return value is `true` (an editor was found and `setValue` ran),
   `false` (no Monaco / no editor picked), or the evaluate itself raises:
   `JsOutcome.ok true / ok false / raised`.  Inside the JS, the request
   editor is picked by DOM containment in `#request-area`, falling back to
   the last editor instance when containment finds nothing and more than
   one editor exists (`pick_request_editor`).
2. `keyboard` — `_set_content_via_keyboard` (src/main.py:807-845): Escape,
   Ctrl+a, then typing for bodies shorter than 500 characters or a
   clipboard write plus Ctrl+v otherwise (`keyboard_actions`).  `kbOk`
   models whether these keyboard calls succeed.
3. `rawDom` — the `except` branch of `_set_content_via_keyboard`: a
   `page.evaluate` assigning the textarea value and dispatching a
   synthetic input event.  `rawRaises` models that evaluate raising.

Control flow of `_set_request_body_async`: when the native evaluate
returns `false`, the keyboard call sits inside the same `try`, so an
exception from it (raw-DOM evaluate raising) is caught at line 784 and
the keyboard method is invoked once more; when the native evaluate itself
raised, the keyboard call runs inside the `except` handler and its
exception propagates.  `set_request_body_strategies` returns the sequence
of strategies run and whether an exception escaped the injection phase. -/

def pick_request_editor {α : Type} (editors : List α) (inRequestArea : α → Bool) :
    Option α :=
  if editors.length = 0 then none
  else
    match editors.find? inRequestArea with
    | some e => some e
    | none => if 1 < editors.length then editors.getLast? else none

inductive KbAction
  | escape
  | selectAll
  | typeChars
  | clipboardPaste
deriving DecidableEq, Repr

def keyboard_actions (body : String) : List KbAction :=
  [KbAction.escape, KbAction.selectAll,
   if body.length < 500 then KbAction.typeChars else KbAction.clipboardPaste]

inductive JsOutcome
  | ok (b : Bool)
  | raised
deriving DecidableEq, Repr

inductive Strategy
  | nativeApi
  | keyboard
  | rawDom
deriving DecidableEq, Repr

def set_content_via_keyboard (kbOk rawRaises : Bool) : List Strategy × Bool :=
  if kbOk then ([Strategy.keyboard], false)
  else ([Strategy.keyboard, Strategy.rawDom], rawRaises)

def set_request_body_strategies (native : JsOutcome) (kbOk rawRaises : Bool) :
    List Strategy × Bool :=
  match native with
  | JsOutcome.ok true => ([Strategy.nativeApi], false)
  | JsOutcome.ok false =>
    let kb := set_content_via_keyboard kbOk rawRaises
    if kb.2 then
      let kb2 := set_content_via_keyboard kbOk rawRaises
      (Strategy.nativeApi :: (kb.1 ++ kb2.1), kb2.2)
    else
      (Strategy.nativeApi :: kb.1, false)
  | JsOutcome.raised =>
    let kb := set_content_via_keyboard kbOk rawRaises
    (Strategy.nativeApi :: kb.1, kb.2)

/-- Result of `_set_request_body_async` after the injection phase: the
format keystroke `Shift+Alt+f` (src/main.py:795) runs inside the same
`try` as the injection, so when it fails the outer `except`
(src/main.py:803-805) re-raises and the whole operation fails. -/
def set_request_body_result (native : JsOutcome) (kbOk rawRaises : Bool)
    (formatOk : Bool) : Except String String :=
  if (set_request_body_strategies native kbOk rawRaises).2 then
    Except.error "Failed to set request body"
  else if formatOk = false then
    Except.error "Failed to set request body"
  else
    Except.ok "Successfully set request body content"

/-! ### Image viewing (`_view_image_async`, src/main.py:1266-1339)

Pure validation chain over file-system oracles (`fsExists`, `isFile`,
`suffixLower` for pathlib's lower-cased suffix, `mimeGuess` for
`mimetypes.guess_type`).  The body performs no browser interaction at
all; every raise inside it is caught by the blanket `except` and
re-raised as `Exception("Failed to view image: ...")`, which prepends the
wrapper text below.  The joined list of supported formats in the
unsupported-extension message iterates a Python set, whose order is
unspecified, so the message is modelled up to that listing. -/

def supported_extensions : List String :=
  [".png", ".jpg", ".jpeg", ".gif", ".bmp", ".webp"]

def fallback_mime_map : List (String × String) :=
  [(".png", "image/png"), (".jpg", "image/jpeg"), (".jpeg", "image/jpeg"),
   (".gif", "image/gif"), (".bmp", "image/bmp"), (".webp", "image/webp")]

inductive ViewImageResult
  | err (msg : String)
  | image (mime : String)
deriving DecidableEq, Repr

def _view_image_async (isAbs fsExists isFile : String → Bool)
    (suffixLower : String → String) (mimeGuess : String → Option String)
    (image_path : String) : ViewImageResult :=
  if image_path = "" then
    ViewImageResult.err "Failed to view image: Image path is required"
  else if isAbs image_path = false then
    ViewImageResult.err
      ("Failed to view image: Image path must be absolute, got: " ++ image_path)
  else if fsExists image_path = false then
    ViewImageResult.err ("Failed to view image: Image file not found: " ++ image_path)
  else if isFile image_path = false then
    ViewImageResult.err ("Failed to view image: Path is not a file: " ++ image_path)
  else
    let ext := suffixLower image_path
    if ext ∈ supported_extensions then
      match mimeGuess image_path with
      | some m => ViewImageResult.image m
      | none =>
        ViewImageResult.image
          (((fallback_mime_map.find? (fun p => p.1 = ext)).map Prod.snd).getD "image/png")
    else
      ViewImageResult.err ("Failed to view image: Unsupported image format: " ++ ext)

/-! ### Helper lemmas (shared) -/

theorem enumFrom_map_fst {α : Type} (n : Nat) (l : List α) :
    (l.enumFrom n).map Prod.fst = List.range' n l.length := by
  induction l generalizing n with
  | nil => rfl
  | cons a t ih => simp [List.enumFrom, List.range', ih]

theorem enum_map_fst_range {α : Type} (l : List α) :
    l.enum.map Prod.fst = List.range l.length := by
  rw [List.enum, enumFrom_map_fst, List.range_eq_range']

/-! ### Claim theorems -/

/-- C4: for every method string whose uppercase form is not in
{GET, POST, PUT, PATCH, DELETE} the set-method tool raises a validation
error before any browser or page interaction occurs, and for every string
whose uppercase form is in the enum the method is case-normalized to
uppercase before being handed to the browser routine. -/
theorem set_method_validation (method : String) :
    (pyUpper method ∉ valid_methods →
      graph_explorer_set_method method =
        SetMethodResult.validationError
          ("Invalid HTTP method: " ++ method ++ ". Must be one of: " ++
            toString valid_methods)) ∧
    (pyUpper method ∈ valid_methods →
      graph_explorer_set_method method = SetMethodResult.browserCall (pyUpper method)) := by
  constructor <;> intro h <;> simp [graph_explorer_set_method, h]

/-- Witness for C4: "patch" is normalized to "PATCH" and reaches the
browser routine, while "FETCH" is rejected before any browser call. -/
theorem set_method_validation_witness :
    graph_explorer_set_method "patch" = SetMethodResult.browserCall "PATCH" ∧
    graph_explorer_set_method "FETCH" =
      SetMethodResult.validationError
        ("Invalid HTTP method: " ++ "FETCH" ++ ". Must be one of: " ++
          toString valid_methods) :=
  ⟨(set_method_validation "patch").2 (by decide),
   (set_method_validation "FETCH").1 (by decide)⟩

/-- C10: the set-URL tool accepts only URLs beginning with the literal
text "https://graph.microsoft.com/"; every other input string raises a
validation error before any browser interaction. -/
theorem set_url_requires_graph_endpoint (api_url : String) :
    (pyStartsWith api_url "https://graph.microsoft.com/" = false →
      graph_explorer_set_url api_url =
        SetUrlResult.validationError
          "URL must be a valid Microsoft Graph API endpoint") ∧
    (pyStartsWith api_url "https://graph.microsoft.com/" = true →
      graph_explorer_set_url api_url = SetUrlResult.browserCall api_url) := by
  constructor <;> intro h <;> simp [graph_explorer_set_url, h]

/-- Witness for C10: a non-Graph URL is rejected with a validation error
and a Graph URL reaches the browser routine unchanged. -/
theorem set_url_requires_graph_endpoint_witness :
    graph_explorer_set_url "https://example.com/v1.0/me" =
      SetUrlResult.validationError
        "URL must be a valid Microsoft Graph API endpoint" ∧
    graph_explorer_set_url "https://graph.microsoft.com/v1.0/me" =
      SetUrlResult.browserCall "https://graph.microsoft.com/v1.0/me" :=
  ⟨(set_url_requires_graph_endpoint "https://example.com/v1.0/me").1 (by decide),
   (set_url_requires_graph_endpoint "https://graph.microsoft.com/v1.0/me").2 (by decide)⟩

/-- C9: when a screenshot is requested with an element selector together
with full_page = true, the capture call is element-only: no full_page
option is passed, and the capture call does not depend on the full_page
flag at all. -/
theorem screenshot_element_ignores_full_page (sel : String) (fp fp' : Bool) :
    screenshot_capture_call fp (some sel) =
      { kind := CaptureKind.element sel, full_page := none, imgType := "png" } ∧
    screenshot_capture_call fp (some sel) = screenshot_capture_call fp' (some sel) :=
  ⟨rfl, rfl⟩

/-- C8: for every save path the absoluteness oracle rejects, the
screenshot tool returns a validation error and no capture call is made;
for every such image path, `_view_image_async` rejects it with the
validation message (wrapped by its blanket handler) whatever the
file-system oracles answer, i.e. without consulting the file system, and
the empty path is likewise rejected before any file-system access. -/
theorem nonabsolute_paths_rejected (isAbs : String → Bool) (p : String)
    (h : isAbs p = false) :
    (∀ (full_page : Bool) (element_selector : Option String),
      graph_explorer_screenshot isAbs p full_page element_selector =
        ScreenshotResult.validationError
          ("save_path must be an absolute path, got: " ++ p)) ∧
    (∀ (fsExists isFile : String → Bool) (suffixLower : String → String)
        (mimeGuess : String → Option String), p ≠ "" →
      _view_image_async isAbs fsExists isFile suffixLower mimeGuess p =
        ViewImageResult.err
          ("Failed to view image: Image path must be absolute, got: " ++ p)) ∧
    (∀ (fsExists isFile : String → Bool) (suffixLower : String → String)
        (mimeGuess : String → Option String),
      _view_image_async isAbs fsExists isFile suffixLower mimeGuess "" =
        ViewImageResult.err "Failed to view image: Image path is required") := by
  refine ⟨?_, ?_, ?_⟩
  · intro fp sel
    simp [graph_explorer_screenshot, h]
  · intro fsE isF sfx mg hne
    simp [_view_image_async, hne, h]
  · intro fsE isF sfx mg
    simp [_view_image_async]

/-- Witness for C8: the relative path "shots/page.png" is rejected by
both operations under the POSIX absoluteness check, independently of the
file-system oracles. -/
theorem nonabsolute_paths_rejected_witness :
    graph_explorer_screenshot (fun s => pyStartsWith s "/") "shots/page.png" false none =
      ScreenshotResult.validationError
        ("save_path must be an absolute path, got: " ++ "shots/page.png") ∧
    _view_image_async (fun s => pyStartsWith s "/") (fun _ => true) (fun _ => true)
        (fun _ => ".png") (fun _ => none) "shots/page.png" =
      ViewImageResult.err
        ("Failed to view image: Image path must be absolute, got: " ++ "shots/page.png") := by
  have h := nonabsolute_paths_rejected (fun s => pyStartsWith s "/") "shots/page.png"
    (by decide)
  exact ⟨h.1 false none,
         h.2.1 (fun _ => true) (fun _ => true) (fun _ => ".png") (fun _ => none)
           (by decide)⟩

/-- C2 counterexample: with all three resources present, a failure of the
context-close step alone stops cleanup — the browser close and transport
stop never run and the exception escapes `cleanup`, refuting the claim
that each step is tolerated failing independently and that cleanup never
raises past the last step. -/
theorem cleanup_not_fault_tolerant :
    (cleanup true true true false true true).1 = [CleanupStep.contextClose] ∧
    CleanupStep.browserClose ∉ (cleanup true true true false true true).1 ∧
    CleanupStep.playwrightStop ∉ (cleanup true true true false true true).1 ∧
    (cleanup true true true false true true).2 = true := by
  decide

/-- C2 (amended): cleanup releases resources in strict reverse-acquisition
order — context close, then browser close, then transport stop — and when
no step fails every present step runs in that order; but the steps are not
failure-isolated: the executed steps are always an initial segment of that
order, and a failing context close halts cleanup immediately with the
exception escaping. -/
theorem cleanup_reverse_order_halts_on_failure
    (hasContext hasBrowser hasPlaywright ctxOk brOk pwOk : Bool) :
    ((cleanup hasContext hasBrowser hasPlaywright ctxOk brOk pwOk).1 =
      (cleanupPresentSteps hasContext hasBrowser hasPlaywright).take
        (cleanup hasContext hasBrowser hasPlaywright ctxOk brOk pwOk).1.length) ∧
    ((cleanup hasContext hasBrowser hasPlaywright ctxOk brOk pwOk).2 = false →
      (cleanup hasContext hasBrowser hasPlaywright ctxOk brOk pwOk).1 =
        cleanupPresentSteps hasContext hasBrowser hasPlaywright) ∧
    (hasContext = true → ctxOk = false →
      cleanup hasContext hasBrowser hasPlaywright ctxOk brOk pwOk =
        ([CleanupStep.contextClose], true)) := by
  cases hasContext <;> cases hasBrowser <;> cases hasPlaywright <;>
    cases ctxOk <;> cases brOk <;> cases pwOk <;> decide

/-- Witness for C2 (amended): with all resources present and no failures,
all three steps run in reverse-acquisition order; with a failing context
close, cleanup halts after the first step. -/
theorem cleanup_reverse_order_halts_on_failure_witness :
    (cleanup true true true true true true).1 = cleanupPresentSteps true true true ∧
    cleanup true true true false true true = ([CleanupStep.contextClose], true) :=
  ⟨(cleanup_reverse_order_halts_on_failure true true true true true true).2.1 (by decide),
   (cleanup_reverse_order_halts_on_failure true true true false true true).2.2 rfl rfl⟩

/-- C3 counterexample: content injection succeeded through the native
Monaco API (no exception escaped the injection phase), yet a failure of
the format keystroke alone makes the whole set-request-body operation
fail, refuting the claim that the format step is best-effort. -/
theorem format_failure_fails_set_body :
    (set_request_body_strategies (JsOutcome.ok true) true false).2 = false ∧
    set_request_body_result (JsOutcome.ok true) true false false =
      Except.error "Failed to set request body" :=
  ⟨rfl, rfl⟩

/-- C3 (amended): the explicit format command issued after content is set
runs inside the same protected block as the injection, so whenever the
injection phase completed without an escaping exception, a failure of the
format step makes the whole operation fail, and the operation succeeds
exactly when the format step also succeeds. -/
theorem set_body_format_not_best_effort (native : JsOutcome) (kbOk rawRaises : Bool)
    (hinj : (set_request_body_strategies native kbOk rawRaises).2 = false) :
    set_request_body_result native kbOk rawRaises false =
      Except.error "Failed to set request body" ∧
    set_request_body_result native kbOk rawRaises true =
      Except.ok "Successfully set request body content" := by
  constructor <;> simp [set_request_body_result, hinj]

/-- Witness for C3 (amended): native-API injection succeeded, then the
operation fails when the format keystroke fails and succeeds when it
succeeds. -/
theorem set_body_format_not_best_effort_witness :
    set_request_body_result (JsOutcome.ok true) true false false =
      Except.error "Failed to set request body" ∧
    set_request_body_result (JsOutcome.ok true) true false true =
      Except.ok "Successfully set request body content" :=
  ⟨(set_body_format_not_best_effort (JsOutcome.ok true) true false rfl).1,
   (set_body_format_not_best_effort (JsOutcome.ok true) true false rfl).2⟩

/-- C1: every set-headers call fully replaces the existing headers —
existing rows are cleared before any new header is added — so, whenever
the removal clicks succeed, calling set-headers with the empty mapping
leaves zero header rows, and in general the final rows are exactly the
successfully added new pairs (full replace, never merge). -/
theorem set_headers_full_replace (removeOk : Nat → Bool)
    (addOk : String → String → Bool) (rows : List (String × String))
    (hremove : ∀ i, removeOk i = true) :
    (_set_request_headers_async true true removeOk addOk rows []).finalRows = [] ∧
    (∀ headers : List (String × String),
      (_set_request_headers_async true true removeOk addOk rows headers).finalRows =
        headers.filter (fun kv => addOk kv.1 kv.2)) := by
  have hclear : (_clear_all_headers true removeOk rows).1 = [] := by
    simp [_clear_all_headers, hremove]
  constructor
  · simp [_set_request_headers_async, hclear]
  · intro headers
    simp [_set_request_headers_async, hclear]

/-- Witness for C1: after a previous header state with one row, setting
the empty mapping leaves zero rows, and setting a singleton mapping leaves
exactly that one new row. -/
theorem set_headers_full_replace_witness :
    (_set_request_headers_async true true (fun _ => true) (fun _ _ => true)
      [("Authorization", "Bearer x")] []).finalRows = [] ∧
    (_set_request_headers_async true true (fun _ => true) (fun _ _ => true)
      [("Authorization", "Bearer x")]
      [("Accept", "application/json")]).finalRows =
      [("Accept", "application/json")] := by
  have h := set_headers_full_replace (fun _ => true) (fun _ _ => true)
    [("Authorization", "Bearer x")] (fun _ => rfl)
  refine ⟨h.1, ?_⟩
  rw [h.2 [("Accept", "application/json")]]
  rfl

/-- C5: the set-headers operation tolerates partial failure — every remove
button is clicked no matter which individual clicks fail, every supplied
pair gets an add attempt no matter which individual adds fail, and the
operation succeeds exactly when at least one header was added, failing
only when every addition fails. -/
theorem set_headers_tolerates_failures (removeOk : Nat → Bool)
    (addOk : String → String → Bool) (rows headers : List (String × String)) :
    ((_clear_all_headers true removeOk rows).2 = List.range rows.length) ∧
    ((_set_request_headers_async true true removeOk addOk rows headers).attempted
      = headers) ∧
    (headers.filter (fun kv => addOk kv.1 kv.2) = [] →
      (_set_request_headers_async true true removeOk addOk rows headers).outcome =
        SetHeadersOutcome.error "Failed to add any headers") ∧
    (headers.filter (fun kv => addOk kv.1 kv.2) ≠ [] →
      (_set_request_headers_async true true removeOk addOk rows headers).outcome =
        SetHeadersOutcome.ok (headers.filter (fun kv => addOk kv.1 kv.2)).length) := by
  refine ⟨?_, ?_, ?_, ?_⟩
  · simp [_clear_all_headers, enum_map_fst_range]
  · simp [_set_request_headers_async]
  · intro hnil
    simp [_set_request_headers_async, hnil]
  · intro hne
    have hlen : (headers.filter (fun kv => addOk kv.1 kv.2)).length ≠ 0 := by
      simpa [List.length_eq_zero] using hne
    simp [_set_request_headers_async, hlen]

/-- Witness for C5: with the removal of row 0 failing, both rows are still
attempted; with the addition of key "A" failing and "B" succeeding, both
pairs are attempted and the operation succeeds with one header added. -/
theorem set_headers_tolerates_failures_witness :
    (_clear_all_headers true (fun i => decide (i ≠ 0))
      [("A", "1"), ("B", "2")]).2 = [0, 1] ∧
    (_set_request_headers_async true true (fun i => decide (i ≠ 0))
      (fun k _ => decide (k = "B")) [("A", "1"), ("B", "2")]
      [("A", "1"), ("B", "2")]).attempted = [("A", "1"), ("B", "2")] ∧
    (_set_request_headers_async true true (fun i => decide (i ≠ 0))
      (fun k _ => decide (k = "B")) [("A", "1"), ("B", "2")]
      [("A", "1"), ("B", "2")]).outcome = SetHeadersOutcome.ok 1 := by
  have h := set_headers_tolerates_failures (fun i => decide (i ≠ 0))
    (fun k _ => decide (k = "B")) [("A", "1"), ("B", "2")] [("A", "1"), ("B", "2")]
  refine ⟨?_, h.2.1, ?_⟩
  · rw [h.1]; rfl
  · have := h.2.2.2 (by decide)
    rw [this]; rfl

/-- C6: selector cascades are first-match-final — if candidate k is the
first to yield a visible match, exactly the candidates up to k are
evaluated and that element is returned, candidates after k never being
tried; only when every candidate fails does the cascade return no element
(and the caller raises an element-not-found error). -/
theorem resolver_first_match_is_final {α : Type} (tryFind : String → Option α)
    (cands : List String) :
    (∀ (k : Nat) (hk : k < cands.length) (e : α),
      (∀ (j : Nat) (hj : j < k), tryFind (cands.get ⟨j, Nat.lt_trans hj hk⟩) = none) →
      tryFind (cands.get ⟨k, hk⟩) = some e →
      resolveFirstMatch tryFind cands = (cands.take (k + 1), some e)) ∧
    ((∀ s ∈ cands, tryFind s = none) →
      resolveFirstMatch tryFind cands = (cands, none)) := by
  induction cands with
  | nil =>
    constructor
    · intro k hk e _ _
      exact absurd hk (Nat.not_lt_zero k)
    · intro _
      rfl
  | cons c rest ih =>
    constructor
    · intro k hk e hbefore hmatch
      cases k with
      | zero =>
        have hc : tryFind c = some e := hmatch
        simp [resolveFirstMatch, hc]
      | succ k' =>
        have hc : tryFind c = none := hbefore 0 (Nat.succ_pos k')
        have hk' : k' < rest.length := Nat.lt_of_succ_lt_succ hk
        have hrest := ih.1 k' hk' e
          (fun j hj => hbefore (j + 1) (Nat.succ_lt_succ hj)) hmatch
        simp [resolveFirstMatch, hc, hrest]
    · intro hall
      have hc : tryFind c = none := hall c (List.mem_cons_self c rest)
      have hrest := ih.2 (fun s hs => hall s (List.mem_cons_of_mem c hs))
      simp [resolveFirstMatch, hc, hrest]

/-- Witness for C6: over the real Run-query candidate list, when the
second selector is the first to match, exactly the first two candidates
are evaluated and the match is returned. -/
theorem resolver_first_match_is_final_witness :
    resolveFirstMatch
      (fun s => if s = "button[aria-label*=\"Run\"]" then some 7 else none)
      run_button_selectors =
      (["button:has-text(\"Run query\")", "button[aria-label*=\"Run\"]"], some 7) := by
  have h := (resolver_first_match_is_final
    (fun s => if s = "button[aria-label*=\"Run\"]" then some (7 : Nat) else none)
    run_button_selectors).1 1 (by decide) 7
    (fun j hj => by
      have hj0 : j = 0 := by omega
      subst hj0
      rfl)
    (by decide)
  rw [h]
  rfl

/-- C7: request-body content injection attempts its fallback strategies
strictly in order — native Monaco API (request-area containment with a
last-editor positional fallback), then synthesized keyboard input
(escape, select-all, then typing for short content or clipboard paste for
long content), then raw DOM value assignment — each later strategy
running only if every earlier one failed, and no strategy running after
one succeeds. -/
theorem injection_fallback_chain (native : JsOutcome) (kbOk rawRaises : Bool) :
    (native = JsOutcome.ok true →
      set_request_body_strategies native kbOk rawRaises =
        ([Strategy.nativeApi], false)) ∧
    (native ≠ JsOutcome.ok true → kbOk = true →
      set_request_body_strategies native kbOk rawRaises =
        ([Strategy.nativeApi, Strategy.keyboard], false)) ∧
    (native ≠ JsOutcome.ok true → kbOk = false → rawRaises = false →
      set_request_body_strategies native kbOk rawRaises =
        ([Strategy.nativeApi, Strategy.keyboard, Strategy.rawDom], false)) ∧
    (Strategy.keyboard ∈ (set_request_body_strategies native kbOk rawRaises).1 →
      native ≠ JsOutcome.ok true) ∧
    (Strategy.rawDom ∈ (set_request_body_strategies native kbOk rawRaises).1 →
      native ≠ JsOutcome.ok true ∧ kbOk = false) ∧
    (∀ (β : Type) (editors : List β) (inRequestArea : β → Bool) (e : β),
      editors.find? inRequestArea = some e →
      pick_request_editor editors inRequestArea = some e) ∧
    (∀ (β : Type) (editors : List β) (inRequestArea : β → Bool),
      editors.find? inRequestArea = none → 1 < editors.length →
      pick_request_editor editors inRequestArea = editors.getLast?) ∧
    (∀ body : String, body.length < 500 →
      keyboard_actions body =
        [KbAction.escape, KbAction.selectAll, KbAction.typeChars]) ∧
    (∀ body : String, ¬body.length < 500 →
      keyboard_actions body =
        [KbAction.escape, KbAction.selectAll, KbAction.clipboardPaste]) := by
  refine ⟨?_, ?_, ?_, ?_, ?_, ?_, ?_, ?_, ?_⟩
  · intro h
    subst h
    rfl
  · intro hnat hkb
    subst hkb
    cases native with
    | ok b =>
      cases b with
      | false => rfl
      | true => exact absurd rfl hnat
    | raised => rfl
  · intro hnat hkb hraw
    subst hkb; subst hraw
    cases native with
    | ok b =>
      cases b with
      | false => rfl
      | true => exact absurd rfl hnat
    | raised => rfl
  · intro hmem
    intro heq
    subst heq
    simp [set_request_body_strategies] at hmem
  · intro hmem
    cases native with
    | ok b =>
      cases b with
      | true => simp [set_request_body_strategies] at hmem
      | false =>
        refine ⟨by simp, ?_⟩
        cases kbOk with
        | true => simp [set_request_body_strategies, set_content_via_keyboard] at hmem
        | false => rfl
    | raised =>
      refine ⟨by simp, ?_⟩
      cases kbOk with
      | true => simp [set_request_body_strategies, set_content_via_keyboard] at hmem
      | false => rfl
  · intro β editors inRequestArea e hfind
    have hne : editors ≠ [] := by
      intro hnil
      subst hnil
      simp [List.find?] at hfind
    have hlen : editors.length ≠ 0 := by
      simpa [List.length_eq_zero] using hne
    simp [pick_request_editor, hlen, hfind]
  · intro β editors inRequestArea hfind hlen
    have hlen0 : editors.length ≠ 0 := by omega
    simp [pick_request_editor, hlen0, hfind, hlen]
  · intro body hshort
    simp [keyboard_actions, hshort]
  · intro body hlong
    simp [keyboard_actions, hlong]

/-- Witness for C7: the native API failing (returning false) and the
keyboard method succeeding yields exactly the first two strategies in
order; with all editors outside the request area and two editors present,
the positional last-editor fallback is used; a short body is typed and a
long body pasted. -/
theorem injection_fallback_chain_witness :
    set_request_body_strategies (JsOutcome.ok false) true false =
      ([Strategy.nativeApi, Strategy.keyboard], false) ∧
    pick_request_editor [10, 20] (fun _ => false) = some 20 ∧
    keyboard_actions "short" =
      [KbAction.escape, KbAction.selectAll, KbAction.typeChars] := by
  have h := injection_fallback_chain (JsOutcome.ok false) true false
  refine ⟨h.2.1 (by decide) rfl, ?_, ?_⟩
  · have := h.2.2.2.2.2.2.1 Nat [10, 20] (fun _ => false) (by decide) (by decide)
    rw [this]
    rfl
  · exact h.2.2.2.2.2.2.2.1 "short" (by decide)

end GraphExplorer
